import Mathlib

/-!
Verification of the FireEye engine-out autotest scenario
(`Tools/autotest/fireeye.py`).

The scenario is an orchestration script: a straight-line sequence of vehicle
commands and bounded waits.  We embed it shallowly as a list of `Step`s
transliterated from the source, and give the steps a timed semantics
(`runSteps`) in which the environment chooses the duration of every bounded
wait (a wait succeeds exactly when its duration is within its timeout, as the
spec's WaitPrimitives contract requires), the measured landing distance of
every distance assertion, and the contents of every parameter download.

The parameter backup/restore comparison loops of the script are embedded as
pure functions (`log_param_diffs`, `check_params_restored`) over association
lists, and the prearm / reset sub-sequences as explicit step lists.
-/

/-- A geographic location. Latitude/longitude are held in the scaled integer
form the script itself sends on the wire (`int(lat * 1e7)`). -/
structure Loc where
  lat7 : Int
  lng7 : Int
  alt : Int
deriving DecidableEq

/-- The rally-point location of the script (36.8164241, -2.868918, alt 5000). -/
def rally_loc : Loc := { lat7 := 368164241, lng7 := -28689180, alt := 5000 }

/-- The guided-target location of the script (36.8192676, -2.8719136, alt 5000). -/
def guided_loc : Loc := { lat7 := 368192676, lng7 := -28719136, alt := 5000 }

/-- Primitive vehicle-link calls issued by the scenario, one constructor per
distinct call of the source script. -/
inductive Cmd
  | startSubtest (msg : String)
  | endSubtest (msg : String)
  | copyModule (file : String)
  | installScript (file : String)
  | installApplet (file : String)
  | removeModule (file : String)
  | removeScript (file : String)
  | rebootSitl
  | setParameter (name : String) (value : Int)
  | loadMission (file : String)
  | uploadRally (locs : List Loc)
  | disarmVehicle (force : Bool)
  | applyParameterFile (file : String)
  | setRC (chan pwm : Nat)
  | changeMode (mode : String)
  | engineControl (p1 : Nat)
  | armVehicle
  | guidedWaypoint (loc : Loc)
  | waitRpm (inst lo hi : Nat)
  | waitReadyToArm
  | waitNotReadyToArm
  | waitCurrentWaypoint (wpnum : Nat)
  | waitHeading (hdg tol : Nat)
  | waitMode (mode : String)
  | waitText (txt : String)
  | waitDisarmed
deriving DecidableEq

/-- One step of the scenario program: an instantaneous action, a bounded wait,
a simulated-time delay, a parameter download (indexed by its position in the
script), one of the two parameter-comparison loops, or a landing-distance
assertion. -/
inductive Step
  | act (a : Cmd)
  | wait (a : Cmd) (timeout : Nat)
  | delay (dt : Nat)
  | download (i : Nat)
  | logDiffs (i j : Nat)
  | checkRestored (i j : Nat)
  | assertDist (target : Loc) (minD maxD : Nat)
deriving DecidableEq

/-- Errors a scenario run can end with: a wait-primitive timeout, a failed
landing-distance assertion, the `ValueError` raised by the parameter-restore
check, or the `KeyError` raised by an unguarded dictionary lookup. -/
inductive TErr
  | timeout
  | distanceFail (measured minD maxD : Nat)
  | valueError (name : String) (before after : Int)
  | keyError (name : String)
deriving DecidableEq

/-- A downloaded parameter set: parameter name to value. -/
abbrev Params : Type := List (String × Int)

/-- The volatile-prefix ignore list of the script (line 270). -/
def param_ignore_filter : List String := ["STAT", "BARO", "SERVO", "Q_P_ACCZ_IMAX"]

/-- Transliteration of `any(p.startswith(s) for s in param_ignore_filter)`
(lines 273/286).
Python's `startswith` is the string-prefix test; it is embedded as the
character-list prefix test so that it evaluates by reduction. -/
def ignoredParam (p : String) : Bool :=
  param_ignore_filter.any (fun s => s.toList.isPrefixOf p.toList)

/-- The first comparison loop (lines 272-276): iterate over the pre-failure
download; for every non-ignored name, look the name up in the post-failure
download (an unguarded dictionary access, hence `keyError` when absent) and
collect a progress message for every changed value. Nothing is raised for a
changed value; only messages are produced. -/
def log_param_diffs : Params → Params → Except TErr (List String)
  | [], _ => .ok []
  | (p, v) :: rest, after =>
    if ignoredParam p then log_param_diffs rest after
    else
      match List.lookup p after with
      | none => .error (.keyError p)
      | some v2 =>
        if v ≠ v2 then
          (log_param_diffs rest after).map
            (fun ms => (p ++ " changed from " ++ toString v ++ " to " ++ toString v2) :: ms)
        else log_param_diffs rest after

/-- The second comparison loop (lines 285-289): iterate over the pre-failure
download; for every non-ignored name, look the name up in the post-restore
download (an unguarded dictionary access, hence `keyError` when absent) and
raise `ValueError` on any changed value. -/
def check_params_restored : Params → Params → Except TErr Unit
  | [], _ => .ok ()
  | (p, v) :: rest, after =>
    if ignoredParam p then check_params_restored rest after
    else
      match List.lookup p after with
      | none => .error (.keyError p)
      | some v2 =>
        if v ≠ v2 then .error (.valueError p v v2)
        else check_params_restored rest after

/-- Environment of a run: the duration the vehicle takes to satisfy each
bounded wait (indexed by the run's wait counter), the landing distance
measured at each distance assertion, and the contents of each parameter
download. Modelled from the spec: the vehicle itself is an external
collaborator observed purely through polling (spec sections 4.1 and 6). -/
structure Env where
  waitTime : Nat → Nat
  dist : Nat → Nat
  params : Nat → Params

/-- A trace event: the step that executed, with its start and finish times. -/
structure Ev where
  t0 : Nat
  t1 : Nat
  step : Step
deriving DecidableEq

/-- Interpreter state: simulated time, the wait and distance-assertion
counters, and the trace of executed steps. -/
structure St where
  time : Nat
  waits : Nat
  dists : Nat
  trace : List Ev
deriving DecidableEq

/-- The initial interpreter state. -/
def st0 : St := { time := 0, waits := 0, dists := 0, trace := [] }

/-- Modelled from the spec: the timeout bound applied by the external test
library to the waits whose bound the scenario source leaves at the library
default (spec section 4.1 requires every wait to carry a finite bound). -/
def DEFAULT_TIMEOUT : Nat := 1800

/-- One small-step of the interpreter. A bounded wait succeeds exactly when
the environment satisfies it within the timeout (spec section 4.1: the wait
returns the first instant the condition holds, or fails with Timeout);
a timed-out wait still appears in the trace, having consumed its full bound.
A distance assertion fails hard when the measured distance is outside
[minD, maxD] (spec section 4.3, step 11). The comparison loops raise the
error their embedded function returns. -/
def runStep (env : Env) (s : St) : Step → St × Option TErr
  | .act a => ({ s with trace := s.trace ++ [⟨s.time, s.time, .act a⟩] }, none)
  | .delay dt =>
      ({ s with time := s.time + dt,
                trace := s.trace ++ [⟨s.time, s.time + dt, .delay dt⟩] }, none)
  | .wait a timeout =>
      let d := env.waitTime s.waits
      if d ≤ timeout then
        ({ s with time := s.time + d, waits := s.waits + 1,
                  trace := s.trace ++ [⟨s.time, s.time + d, .wait a timeout⟩] }, none)
      else
        ({ s with time := s.time + timeout, waits := s.waits + 1,
                  trace := s.trace ++ [⟨s.time, s.time + timeout, .wait a timeout⟩] },
         some .timeout)
  | .download i => ({ s with trace := s.trace ++ [⟨s.time, s.time, .download i⟩] }, none)
  | .logDiffs i j =>
      match log_param_diffs (env.params i) (env.params j) with
      | .ok _ => ({ s with trace := s.trace ++ [⟨s.time, s.time, .logDiffs i j⟩] }, none)
      | .error e => (s, some e)
  | .checkRestored i j =>
      match check_params_restored (env.params i) (env.params j) with
      | .ok _ => ({ s with trace := s.trace ++ [⟨s.time, s.time, .checkRestored i j⟩] }, none)
      | .error e => (s, some e)
  | .assertDist target minD maxD =>
      let d := env.dist s.dists
      if minD ≤ d ∧ d ≤ maxD then
        ({ s with dists := s.dists + 1,
                  trace := s.trace ++ [⟨s.time, s.time, .assertDist target minD maxD⟩] }, none)
      else
        ({ s with dists := s.dists + 1 }, some (.distanceFail d minD maxD))

/-- Run a step list in sequence; an error in any step stops the run there and
propagates (Python exception semantics: the script installs no handler). -/
def runSteps (env : Env) : St → List Step → St × Option TErr
  | s, [] => (s, none)
  | s, step :: rest =>
    match runStep env s step with
    | (s1, none) => runSteps env s1 rest
    | (s1, some e) => (s1, some e)

/-- Transliteration of `reset_aircraft` (lines 95-105): force-disarm, reboot, reapply the
baseline parameter file, throttle stick to idle, QHOVER, engine start, wait
for RPM in band, wait until armable. -/
def reset_aircraft : List Step :=
  [Step.act (.disarmVehicle true),
   Step.act .rebootSitl,
   Step.act (.applyParameterFile "default_params/fireeye-engout.parm"),
   Step.act (.setRC 3 1000),
   Step.act (.changeMode "QHOVER"),
   Step.act (.engineControl 1),
   Step.wait (.waitRpm 2 1000 3000) DEFAULT_TIMEOUT,
   Step.wait .waitReadyToArm DEFAULT_TIMEOUT]

/-- Transliteration of `do_guided` (lines 107-124): change to GUIDED and send a single
navigation waypoint to the location. -/
def do_guided (location : Loc) : List Step :=
  [Step.act (.changeMode "GUIDED"), Step.act (.guidedWaypoint location)]

/-- The subtest banner string (lines 146-154).  The source renders the
heading and the coordinates with printf-style float formatting; we render
the same data with `toString` (the exact text is never load-bearing). -/
def subtest_message (heading : Nat) (target : Loc) (is_guided : Bool)
    (qassist_timeout qrtl_timeout : Nat) : String :=
  let base := "Basic mission test with heading " ++ toString heading ++ " and "
      ++ (if is_guided then "guided" else "rally") ++ " "
      ++ toString target.lat7 ++ ", " ++ toString target.lng7
  let m1 := if qassist_timeout ≠ 0 then "Testing that the Q_ASSIST timeout works" else base
  if qrtl_timeout ≠ 0 then "Testing that the QRTL timeout works" else m1

/-- Transliteration of `basic_auto_mission` (lines 128-195), line for line:
start the subtest, reset, upload the target as the single rally point when
not guided, apply any nonzero timeout overrides, AUTO, arm, throttle to
cruise, wait for waypoint 4 (timeout 600), wait for the heading within 5
degrees (timeout 300), kill the engine, the guided branch (wait RTL, settle
10, divert), the mutually exclusive timeout-override text waits, wait for
disarm (timeout 600), assert the distance band, end the subtest. -/
def basic_auto_mission (heading : Nat) (target : Loc) (is_guided : Bool)
    (min_distance max_distance qassist_timeout qrtl_timeout : Nat) : List Step :=
  [Step.act (.startSubtest (subtest_message heading target is_guided qassist_timeout qrtl_timeout))]
  ++ reset_aircraft
  ++ (if is_guided then [] else [Step.act (.uploadRally [target])])
  ++ (if qassist_timeout ≠ 0 then
        [Step.act (.setParameter "ENGOUT_QAST_TIME" (qassist_timeout : Int))] else [])
  ++ (if qrtl_timeout ≠ 0 then
        [Step.act (.setParameter "ENGOUT_QRTL_TIME" (qrtl_timeout : Int))] else [])
  ++ [Step.act (.changeMode "AUTO"),
      Step.act .armVehicle,
      Step.act (.setRC 3 1500),
      Step.wait (.waitCurrentWaypoint 4) 600,
      Step.wait (.waitHeading heading 5) 300,
      Step.act (.engineControl 0)]
  ++ (if is_guided then
        [Step.wait (.waitMode "RTL") DEFAULT_TIMEOUT, Step.delay 10] ++ do_guided target
      else [])
  ++ (if qassist_timeout ≠ 0 then
        [Step.wait (.waitText "Q_ASSIST for too long") DEFAULT_TIMEOUT]
      else if qrtl_timeout ≠ 0 then
        [Step.wait (.waitText "QRTL for too long") DEFAULT_TIMEOUT]
      else [])
  ++ [Step.wait .waitDisarmed 600,
      Step.assertDist target min_distance max_distance,
      Step.act (.endSubtest (subtest_message heading target is_guided qassist_timeout qrtl_timeout))]

/-- The detections / parameter backup-restore sub-scenario
(lines 256-294): reset, download (index 0), fly to waypoint 4, kill the
engine, wait for the detection text, download (index 1), log the diffs
against the pre-failure snapshot, restore the engine, wait for the recovery
text, download (index 2), hard-check the third download against the
pre-failure snapshot, force-disarm. -/
def params_subtest : List Step :=
  [Step.act (.startSubtest "Testing detections and parameters backup/restore")]
  ++ reset_aircraft
  ++ [Step.download 0,
      Step.act (.changeMode "AUTO"),
      Step.act .armVehicle,
      Step.act (.setRC 3 1500),
      Step.wait (.waitCurrentWaypoint 4) 600,
      Step.act (.engineControl 0),
      Step.wait (.waitText "Engine out") DEFAULT_TIMEOUT,
      Step.delay 1,
      Step.download 1,
      Step.logDiffs 0 1,
      Step.act (.engineControl 1),
      Step.wait (.waitText "Engine running") DEFAULT_TIMEOUT,
      Step.delay 1,
      Step.download 2,
      Step.checkRestored 0 2,
      Step.act (.disarmVehicle true),
      Step.wait .waitDisarmed DEFAULT_TIMEOUT,
      Step.act (.endSubtest "Testing detections and parameters backup/restore")]

/-- The prearm-check sub-scenario (lines 299-320): reset, then each
parameter/engine change immediately followed by its armability wait. -/
def prearm_subtest : List Step :=
  [Step.act (.startSubtest "Testing prearm checks")]
  ++ reset_aircraft
  ++ [Step.act (.setParameter "GLIDE_SPD" 1),
      Step.wait .waitNotReadyToArm DEFAULT_TIMEOUT,
      Step.act (.setParameter "GLIDE_SPD" 22),
      Step.wait .waitReadyToArm DEFAULT_TIMEOUT,
      Step.act (.setParameter "GLIDE_SPD" 100),
      Step.wait .waitNotReadyToArm DEFAULT_TIMEOUT,
      Step.act (.setParameter "GLIDE_SPD" 22),
      Step.wait .waitReadyToArm DEFAULT_TIMEOUT,
      Step.act (.engineControl 0),
      Step.wait .waitNotReadyToArm DEFAULT_TIMEOUT,
      Step.act (.engineControl 1),
      Step.wait .waitReadyToArm DEFAULT_TIMEOUT,
      Step.act (.endSubtest "Testing prearm checks")]

/-- Script installation and configuration prelude of `EngineOutScript`
(lines 197-229), parameterized by the GCS source-system id written to
SYSID_MYGCS. -/
def engineout_setup (sysid : Nat) : List Step :=
  [Step.act (.copyModule "utilities.lua"),
   Step.act (.installScript "EFI_SITL.lua"),
   Step.act (.installApplet "engine_out.lua"),
   Step.act .rebootSitl,
   Step.act (.setParameter "FENCE_ENABLE" 0),
   Step.act (.setParameter "SYSID_MYGCS" (sysid : Int)),
   Step.act (.loadMission "mission.waypoints"),
   Step.act (.uploadRally [rally_loc])]

/-- Removal of the installed scripts (lines 322-324). -/
def engineout_teardown : List Step :=
  [Step.act (.removeModule "utilities.lua"),
   Step.act (.removeScript "EFI_SITL.lua"),
   Step.act (.removeScript "engine_out.lua")]

/-- The heading sweep (lines 239-241): one `basic_auto_mission` per heading
in `range(0, 360, 90)` followed by the random sample (passed in here, since
`random.sample(range(360), 4)` draws from the external random source). -/
def heading_sweep (sample : List Nat) : List Step :=
  ((((List.range 4).map (fun k => 90 * k)) ++ sample).map
    (fun heading => basic_auto_mission heading rally_loc false 0 50 0 0)).flatten

/-- Transliteration of `EngineOutScript` (lines 126-324): the full ordered scenario, one segment
per sub-scenario, in source order. -/
def EngineOutScript (sample : List Nat) (sysid : Nat) : List Step :=
  engineout_setup sysid
  ++ basic_auto_mission 270 guided_loc true 0 50 0 0
  ++ heading_sweep sample
  ++ basic_auto_mission 270 rally_loc false 0 300 1 0
  ++ basic_auto_mission 270 rally_loc false 50 300 0 5
  ++ params_subtest
  ++ prearm_subtest
  ++ engineout_teardown

/-- Recognizer for sub-scenario start markers in a trace. -/
def isSubtestStart : Step → Bool
  | .act (.startSubtest _) => true
  | _ => false

/-- Modelled from the spec: the abstract vehicle state observable through the
vehicle link (spec sections 3 and 6) - armed flag, flight mode, throttle
stick, engine state, last applied baseline parameter file and the parameter
overrides set since. -/
structure VehicleState where
  armed : Bool
  mode : String
  rc3 : Nat
  engineOn : Bool
  paramFile : String
  paramOverrides : List (String × Int)
deriving DecidableEq

/-- Modelled from the spec: the effect of each orchestration command on the
abstract vehicle state (spec sections 4.1-4.2 and 6).  Waits are read-only
(section 4.1: no side effect beyond time elapsed); a reboot restarts the
vehicle process into the default QHOVER mode with the engine off; applying a
parameter file resets the overrides to that baseline; engine control sets the
engine state from its stop/start argument. -/
def applyStep (v : VehicleState) : Step → VehicleState
  | .act (.disarmVehicle _) => { v with armed := false }
  | .act .rebootSitl => { v with armed := false, mode := "QHOVER", engineOn := false }
  | .act (.applyParameterFile f) => { v with paramFile := f, paramOverrides := [] }
  | .act (.setRC c pwm) => if c = 3 then { v with rc3 := pwm } else v
  | .act (.changeMode m) => { v with mode := m }
  | .act (.engineControl p1) => { v with engineOn := p1 != 0 }
  | .act .armVehicle => { v with armed := true }
  | .act (.setParameter n x) => { v with paramOverrides := v.paramOverrides ++ [(n, x)] }
  | _ => v

/-- Fold the modelled vehicle effect over a step list. -/
def applySteps (v : VehicleState) (l : List Step) : VehicleState :=
  l.foldl applyStep v

/-- The baseline state `reset_aircraft` drives the vehicle to: disarmed, in
QHOVER, throttle idle, engine running, engine-out baseline parameters with no
overrides. -/
def baselineState : VehicleState :=
  { armed := false, mode := "QHOVER", rc3 := 1000, engineOn := true,
    paramFile := "default_params/fireeye-engout.parm", paramOverrides := [] }

/-- Modelled from the spec: armability of the abstract vehicle state (spec
section 8, engine-state gating: engine running and not already armed). -/
def armable (v : VehicleState) : Bool :=
  v.engineOn && !v.armed

/-- An environment in which every wait is satisfied immediately and every
measured landing distance is 25. -/
def envZ : Env :=
  { waitTime := fun _ => 0, dist := fun _ => 25, params := fun _ => [] }

/-- An environment in which every wait takes longer than any bound used by
the scenario, so the very first wait of a run times out. -/
def envTO : Env :=
  { waitTime := fun _ => DEFAULT_TIMEOUT + 1, dist := fun _ => 0, params := fun _ => [] }

/-- An environment in which the waypoint, heading and disarm waits of a
rally-mode `basic_auto_mission` each consume exactly their full bound and
still succeed, and the measured landing distance is 25. -/
def env3 : Env :=
  { waitTime := fun n => if n = 2 then 600 else if n = 3 then 300 else if n = 4 then 600 else 0,
    dist := fun _ => 25, params := fun _ => [] }

/-- The sub-scenario segments of `EngineOutScript`, in source order:
`EngineOutScript` is their concatenation. -/
def engineout_segments (sample : List Nat) (sysid : Nat) : List (List Step) :=
  [engineout_setup sysid,
   basic_auto_mission 270 guided_loc true 0 50 0 0,
   heading_sweep sample,
   basic_auto_mission 270 rally_loc false 0 300 1 0,
   basic_auto_mission 270 rally_loc false 50 300 0 5,
   params_subtest,
   prearm_subtest,
   engineout_teardown]

/-- An environment in which every wait succeeds immediately and every
distance assertion passes (assertion 10, the QRTL variant with minimum 50,
measures 60; the others measure 25), but the post-restore parameter download
(download 2) differs from the pre-failure download on the name FOO, so the
parameter-integrity check of the sixth sub-scenario raises its value error. -/
def envP : Env :=
  { waitTime := fun _ => 0,
    dist := fun i => if i = 10 then 60 else 25,
    params := fun i => if i = 2 then [("FOO", 2)] else [("FOO", 1)] }

/-- Sequencing: running `l1 ++ l2` runs `l1`, and runs `l2` from its final
state only when `l1` raised no error. -/
theorem runSteps_append (env : Env) (l1 l2 : List Step) : ∀ s : St,
    runSteps env s (l1 ++ l2) =
      match runSteps env s l1 with
      | (s1, none) => runSteps env s1 l2
      | (s1, some e) => (s1, some e) := by
  induction l1 with
  | nil => intro s; rfl
  | cons a l ih =>
    intro s
    simp only [List.cons_append, runSteps]
    rcases runStep env s a with ⟨s1, _ | e⟩
    · exact ih s1
    · rfl

/-- An error in a prefix aborts the whole run with that error. -/
theorem runSteps_append_err (env : Env) (l1 l2 : List Step) (s s1 : St) (e : TErr)
    (h : runSteps env s l1 = (s1, some e)) :
    runSteps env s (l1 ++ l2) = (s1, some e) := by
  rw [runSteps_append env l1 l2 s, h]

/-- A successful prefix continues into the suffix. -/
theorem runSteps_append_ok (env : Env) (l1 l2 : List Step) (s s1 : St)
    (h : runSteps env s l1 = (s1, none)) :
    runSteps env s (l1 ++ l2) = runSteps env s1 l2 := by
  rw [runSteps_append env l1 l2 s, h]

/-- A successful step appends exactly itself to the trace. -/
theorem runStep_ok_trace (env : Env) (s s1 : St) (a : Step)
    (h : runStep env s a = (s1, none)) :
    s1.trace.map Ev.step = s.trace.map Ev.step ++ [a] := by
  cases a with
  | act c => injection h with h1 h2; subst h1; simp
  | wait c timeout =>
    simp only [runStep] at h
    split at h
    · injection h with h1 h2; subst h1; simp
    · injection h with h1 h2; cases h2
  | delay dt => injection h with h1 h2; subst h1; simp
  | download i => injection h with h1 h2; subst h1; simp
  | logDiffs i j =>
    simp only [runStep] at h
    split at h
    · injection h with h1 h2; subst h1; simp
    · injection h with h1 h2; cases h2
  | checkRestored i j =>
    simp only [runStep] at h
    split at h
    · injection h with h1 h2; subst h1; simp
    · injection h with h1 h2; cases h2
  | assertDist target minD maxD =>
    simp only [runStep] at h
    split at h
    · injection h with h1 h2; subst h1; simp
    · injection h with h1 h2; cases h2

/-- A successful run executes exactly its program: the step sequence of the
final trace is the initial trace's step sequence followed by the whole
program, in order. -/
theorem runSteps_ok_trace (env : Env) : ∀ (l : List Step) (s s' : St),
    runSteps env s l = (s', none) →
    s'.trace.map Ev.step = s.trace.map Ev.step ++ l := by
  intro l
  induction l with
  | nil =>
    intro s s' h
    injection h with h1 h2
    subst h1
    simp
  | cons a rest ih =>
    intro s s' h
    cases hs : runStep env s a with
    | mk s1 o =>
      cases o with
      | none =>
        simp only [runSteps, hs] at h
        rw [ih s1 s' h, runStep_ok_trace env s s1 a hs]
        simp
      | some e => simp [runSteps, hs] at h

/-- A rally-mode, no-override `basic_auto_mission` unfolds to this explicit
straight-line step sequence. -/
theorem bam_rally_eq (hd : Nat) (target : Loc) (minD maxD : Nat) :
    basic_auto_mission hd target false minD maxD 0 0 =
      [Step.act (.startSubtest (subtest_message hd target false 0 0)),
       Step.act (.disarmVehicle true),
       Step.act .rebootSitl,
       Step.act (.applyParameterFile "default_params/fireeye-engout.parm"),
       Step.act (.setRC 3 1000),
       Step.act (.changeMode "QHOVER"),
       Step.act (.engineControl 1),
       Step.wait (.waitRpm 2 1000 3000) DEFAULT_TIMEOUT,
       Step.wait .waitReadyToArm DEFAULT_TIMEOUT,
       Step.act (.uploadRally [target]),
       Step.act (.changeMode "AUTO"),
       Step.act .armVehicle,
       Step.act (.setRC 3 1500),
       Step.wait (.waitCurrentWaypoint 4) 600,
       Step.wait (.waitHeading hd 5) 300,
       Step.act (.engineControl 0),
       Step.wait .waitDisarmed 600,
       Step.assertDist target minD maxD,
       Step.act (.endSubtest (subtest_message hd target false 0 0))] := rfl

set_option maxHeartbeats 1000000 in
/-- Invariant of any successful rally-mode, no-override `basic_auto_mission`
run from the initial state: the disarm wait (wait number 4 of the run)
completed within its 600 bound, the measured landing distance (assertion
number 0) lies in the configured band, and the trace shows the engine kill
immediately followed by the disarm wait, which begins at the kill instant
and finishes the disarm-wait duration later. -/
theorem bam_rally_inv (hd : Nat) (target : Loc) (minD maxD : Nat) (env : Env) (s' : St)
    (hrun : runSteps env st0 (basic_auto_mission hd target false minD maxD 0 0) = (s', none)) :
    env.waitTime 4 ≤ 600 ∧ minD ≤ env.dist 0 ∧ env.dist 0 ≤ maxD ∧
      ∃ tb,
        s'.trace[15]? = some ⟨tb, tb, Step.act (Cmd.engineControl 0)⟩ ∧
        s'.trace[16]? = some ⟨tb, tb + env.waitTime 4, Step.wait Cmd.waitDisarmed 600⟩ := by
  rw [bam_rally_eq] at hrun
  by_cases hw0 : env.waitTime 0 ≤ DEFAULT_TIMEOUT
  case neg => simp [runSteps, runStep, st0, hw0] at hrun
  by_cases hw1 : env.waitTime 1 ≤ DEFAULT_TIMEOUT
  case neg => simp [runSteps, runStep, st0, hw0, hw1] at hrun
  by_cases hw2 : env.waitTime 2 ≤ 600
  case neg => simp [runSteps, runStep, st0, hw0, hw1, hw2] at hrun
  by_cases hw3 : env.waitTime 3 ≤ 300
  case neg => simp [runSteps, runStep, st0, hw0, hw1, hw2, hw3] at hrun
  by_cases hw4 : env.waitTime 4 ≤ 600
  case neg => simp [runSteps, runStep, st0, hw0, hw1, hw2, hw3, hw4] at hrun
  by_cases hdist : minD ≤ env.dist 0 ∧ env.dist 0 ≤ maxD
  case neg => simp [runSteps, runStep, st0, hw0, hw1, hw2, hw3, hw4, hdist] at hrun
  simp [runSteps, runStep, st0, hw0, hw1, hw2, hw3, hw4, hdist] at hrun
  subst hrun
  exact ⟨hw4, hdist.1, hdist.2, _, rfl, rfl⟩

/-- C1: in every invocation of `basic_auto_mission`, any successful run
executes exactly this step order: start the subtest; reset the aircraft
(force-disarm, reboot, baseline parameter file, throttle idle, QHOVER,
engine start, RPM-band wait, armable wait); if not guided, upload the target
as the single rally point; apply any nonzero assist/RTL timeout overrides as
vehicle parameters; only then switch to AUTO and arm; after arming wait for
waypoint 4, then wait for the heading within 5 degrees, and only then inject
the engine failure; if guided, wait for RTL, allow a 10-unit settling delay,
then issue the diversion to the target; then the fallback text wait if an
override was set; then the disarm wait and the distance assertion. -/
theorem basic_auto_mission_step_order (heading : Nat) (target : Loc) (is_guided : Bool)
    (min_distance max_distance qassist_timeout qrtl_timeout : Nat)
    (env : Env) (s' : St)
    (hrun : runSteps env st0
      (basic_auto_mission heading target is_guided min_distance max_distance
        qassist_timeout qrtl_timeout) = (s', none)) :
    s'.trace.map Ev.step =
      [Step.act (.startSubtest
          (subtest_message heading target is_guided qassist_timeout qrtl_timeout)),
       Step.act (.disarmVehicle true),
       Step.act .rebootSitl,
       Step.act (.applyParameterFile "default_params/fireeye-engout.parm"),
       Step.act (.setRC 3 1000),
       Step.act (.changeMode "QHOVER"),
       Step.act (.engineControl 1),
       Step.wait (.waitRpm 2 1000 3000) DEFAULT_TIMEOUT,
       Step.wait .waitReadyToArm DEFAULT_TIMEOUT]
      ++ (if is_guided then [] else [Step.act (.uploadRally [target])])
      ++ (if qassist_timeout ≠ 0 then
            [Step.act (.setParameter "ENGOUT_QAST_TIME" (qassist_timeout : Int))] else [])
      ++ (if qrtl_timeout ≠ 0 then
            [Step.act (.setParameter "ENGOUT_QRTL_TIME" (qrtl_timeout : Int))] else [])
      ++ [Step.act (.changeMode "AUTO"),
          Step.act .armVehicle,
          Step.act (.setRC 3 1500),
          Step.wait (.waitCurrentWaypoint 4) 600,
          Step.wait (.waitHeading heading 5) 300,
          Step.act (.engineControl 0)]
      ++ (if is_guided then
            [Step.wait (.waitMode "RTL") DEFAULT_TIMEOUT, Step.delay 10,
             Step.act (.changeMode "GUIDED"), Step.act (.guidedWaypoint target)]
          else [])
      ++ (if qassist_timeout ≠ 0 then
            [Step.wait (.waitText "Q_ASSIST for too long") DEFAULT_TIMEOUT]
          else if qrtl_timeout ≠ 0 then
            [Step.wait (.waitText "QRTL for too long") DEFAULT_TIMEOUT]
          else [])
      ++ [Step.wait .waitDisarmed 600,
          Step.assertDist target min_distance max_distance,
          Step.act (.endSubtest
            (subtest_message heading target is_guided qassist_timeout qrtl_timeout))] := by
  rw [runSteps_ok_trace env _ st0 s' hrun]
  rfl

/-- Witness for C1: a concrete successful guided run, with the executed step
order instantiated. -/
theorem basic_auto_mission_step_order_witness :
    (runSteps envZ st0 (basic_auto_mission 270 guided_loc true 0 50 0 0)).1.trace.map Ev.step =
      [Step.act (.startSubtest (subtest_message 270 guided_loc true 0 0)),
       Step.act (.disarmVehicle true),
       Step.act .rebootSitl,
       Step.act (.applyParameterFile "default_params/fireeye-engout.parm"),
       Step.act (.setRC 3 1000),
       Step.act (.changeMode "QHOVER"),
       Step.act (.engineControl 1),
       Step.wait (.waitRpm 2 1000 3000) DEFAULT_TIMEOUT,
       Step.wait .waitReadyToArm DEFAULT_TIMEOUT]
      ++ (if true then [] else [Step.act (.uploadRally [guided_loc])])
      ++ (if (0 : Nat) ≠ 0 then
            [Step.act (.setParameter "ENGOUT_QAST_TIME" ((0 : Nat) : Int))] else [])
      ++ (if (0 : Nat) ≠ 0 then
            [Step.act (.setParameter "ENGOUT_QRTL_TIME" ((0 : Nat) : Int))] else [])
      ++ [Step.act (.changeMode "AUTO"),
          Step.act .armVehicle,
          Step.act (.setRC 3 1500),
          Step.wait (.waitCurrentWaypoint 4) 600,
          Step.wait (.waitHeading 270 5) 300,
          Step.act (.engineControl 0)]
      ++ (if true then
            [Step.wait (.waitMode "RTL") DEFAULT_TIMEOUT, Step.delay 10,
             Step.act (.changeMode "GUIDED"), Step.act (.guidedWaypoint guided_loc)]
          else [])
      ++ (if (0 : Nat) ≠ 0 then
            [Step.wait (.waitText "Q_ASSIST for too long") DEFAULT_TIMEOUT]
          else if (0 : Nat) ≠ 0 then
            [Step.wait (.waitText "QRTL for too long") DEFAULT_TIMEOUT]
          else [])
      ++ [Step.wait .waitDisarmed 600,
          Step.assertDist guided_loc 0 50,
          Step.act (.endSubtest (subtest_message 270 guided_loc true 0 0))] :=
  basic_auto_mission_step_order 270 guided_loc true 0 50 0 0 envZ
    (runSteps envZ st0 (basic_auto_mission 270 guided_loc true 0 50 0 0)).1 rfl

/-- C4: the prearm-check sweep is exactly this ordered sequence: after the
reset, the below-range parameter value is immediately followed by the
not-armable wait, the restored value by the armable wait, likewise for the
above-range value, and the engine stop/start commands by their
not-armable/armable waits, with no intermediate step anywhere. -/
theorem prearm_sweep_step_order :
    prearm_subtest =
      [Step.act (.startSubtest "Testing prearm checks"),
       Step.act (.disarmVehicle true),
       Step.act .rebootSitl,
       Step.act (.applyParameterFile "default_params/fireeye-engout.parm"),
       Step.act (.setRC 3 1000),
       Step.act (.changeMode "QHOVER"),
       Step.act (.engineControl 1),
       Step.wait (.waitRpm 2 1000 3000) DEFAULT_TIMEOUT,
       Step.wait .waitReadyToArm DEFAULT_TIMEOUT,
       Step.act (.setParameter "GLIDE_SPD" 1),
       Step.wait .waitNotReadyToArm DEFAULT_TIMEOUT,
       Step.act (.setParameter "GLIDE_SPD" 22),
       Step.wait .waitReadyToArm DEFAULT_TIMEOUT,
       Step.act (.setParameter "GLIDE_SPD" 100),
       Step.wait .waitNotReadyToArm DEFAULT_TIMEOUT,
       Step.act (.setParameter "GLIDE_SPD" 22),
       Step.wait .waitReadyToArm DEFAULT_TIMEOUT,
       Step.act (.engineControl 0),
       Step.wait .waitNotReadyToArm DEFAULT_TIMEOUT,
       Step.act (.engineControl 1),
       Step.wait .waitReadyToArm DEFAULT_TIMEOUT,
       Step.act (.endSubtest "Testing prearm checks")] := rfl

/-- C6: `reset_aircraft` is exactly the claimed command sequence
(force-disarm, restart, baseline parameter file, throttle idle, safe hover
mode, engine start, RPM-band wait, armable wait), and when any of its waits
times out the error propagates as the result of the whole surrounding run:
nothing that follows the reset executes. -/
theorem reset_aircraft_sequence_and_propagation :
    (reset_aircraft =
      [Step.act (.disarmVehicle true),
       Step.act .rebootSitl,
       Step.act (.applyParameterFile "default_params/fireeye-engout.parm"),
       Step.act (.setRC 3 1000),
       Step.act (.changeMode "QHOVER"),
       Step.act (.engineControl 1),
       Step.wait (.waitRpm 2 1000 3000) DEFAULT_TIMEOUT,
       Step.wait .waitReadyToArm DEFAULT_TIMEOUT]) ∧
    ∀ (env : Env) (s s1 : St) (e : TErr) (rest : List Step),
      runSteps env s reset_aircraft = (s1, some e) →
      runSteps env s (reset_aircraft ++ rest) = (s1, some e) :=
  ⟨rfl, fun env s s1 e rest h => runSteps_append_err env _ rest s s1 e h⟩

/-- Witness for C6: with every wait overrunning its bound, the RPM wait of
the reset times out and the step scheduled after the reset never runs. -/
theorem reset_aircraft_sequence_and_propagation_witness :
    runSteps envTO st0 (reset_aircraft ++ [Step.act Cmd.armVehicle]) =
      ((runSteps envTO st0 reset_aircraft).1, some TErr.timeout) :=
  reset_aircraft_sequence_and_propagation.2 envTO st0
    (runSteps envTO st0 reset_aircraft).1 TErr.timeout [Step.act Cmd.armVehicle] rfl

/-- C7: in the program of any single `basic_auto_mission` invocation the
assist-timeout fallback text wait and the RTL-timeout fallback text wait
never both occur: the two waits are mutually exclusive per invocation. -/
theorem timeout_fallback_waits_exclusive (heading : Nat) (target : Loc) (is_guided : Bool)
    (min_distance max_distance qassist_timeout qrtl_timeout : Nat) :
    ((basic_auto_mission heading target is_guided min_distance max_distance
        qassist_timeout qrtl_timeout).contains
          (Step.wait (Cmd.waitText "Q_ASSIST for too long") DEFAULT_TIMEOUT)
      && (basic_auto_mission heading target is_guided min_distance max_distance
        qassist_timeout qrtl_timeout).contains
          (Step.wait (Cmd.waitText "QRTL for too long") DEFAULT_TIMEOUT)) = false := by
  cases is_guided <;> cases qassist_timeout <;> cases qrtl_timeout <;> rfl

/-- C9: from any starting vehicle state, `reset_aircraft` drives the
modelled vehicle to the armable baseline state, so a second run ends in the
identical post-state as the first. -/
theorem reset_aircraft_idempotent (v : VehicleState) :
    applySteps v reset_aircraft = baselineState ∧
    applySteps (applySteps v reset_aircraft) reset_aircraft = applySteps v reset_aircraft ∧
    armable (applySteps v reset_aircraft) = true :=
  ⟨rfl, rfl, rfl⟩

/-- Counterexample to C3 as stated: under `env3` the example scenario
(heading 270, rally target, band [0, 50]) runs to success, the AUTO mode
switch happens at time 0, yet the disarm wait completes at time 1500 -
far outside a 600-unit window from entering AUTO - because the waypoint
wait (bound 600) and the heading wait (bound 300) run in between and only
the disarm wait itself carries the 600 bound. -/
theorem example_scenario_auto_window_cex :
    (runSteps env3 st0 (basic_auto_mission 270 rally_loc false 0 50 0 0)).2 = none ∧
    ((runSteps env3 st0 (basic_auto_mission 270 rally_loc false 0 50 0 0)).1.trace[10]?).map Ev.step
      = some (Step.act (Cmd.changeMode "AUTO")) ∧
    ((runSteps env3 st0 (basic_auto_mission 270 rally_loc false 0 50 0 0)).1.trace[10]?).map Ev.t1
      = some 0 ∧
    ((runSteps env3 st0 (basic_auto_mission 270 rally_loc false 0 50 0 0)).1.trace[16]?).map Ev.step
      = some (Step.wait Cmd.waitDisarmed 600) ∧
    ((runSteps env3 st0 (basic_auto_mission 270 rally_loc false 0 50 0 0)).1.trace[16]?).map Ev.t1
      = some 1500 ∧
    ¬ (1500 ≤ 0 + 600) := by decide

/-- C3 (amended): the example scenario run succeeds only if the vehicle
disarms within 600 time-units of the engine-failure injection (the disarm
wait starts at the kill instant and carries the 600 bound), and the final
measured distance to the target is at most 50. -/
theorem example_scenario_success_bounds (env : Env) (s' : St)
    (hrun : runSteps env st0 (basic_auto_mission 270 rally_loc false 0 50 0 0) = (s', none)) :
    (∃ tb t1, s'.trace[15]? = some ⟨tb, tb, Step.act (Cmd.engineControl 0)⟩ ∧
              s'.trace[16]? = some ⟨tb, t1, Step.wait Cmd.waitDisarmed 600⟩ ∧
              t1 ≤ tb + 600) ∧
    env.dist 0 ≤ 50 := by
  obtain ⟨h4, hmin, hmax, tb, h15, h16⟩ := bam_rally_inv 270 rally_loc 0 50 env s' hrun
  exact ⟨⟨tb, tb + env.waitTime 4, h15, h16, by omega⟩, hmax⟩

/-- Witness for the amended C3: a concrete successful example-scenario run. -/
theorem example_scenario_success_bounds_witness :
    (∃ tb t1,
        (runSteps envZ st0 (basic_auto_mission 270 rally_loc false 0 50 0 0)).1.trace[15]?
          = some ⟨tb, tb, Step.act (Cmd.engineControl 0)⟩ ∧
        (runSteps envZ st0 (basic_auto_mission 270 rally_loc false 0 50 0 0)).1.trace[16]?
          = some ⟨tb, t1, Step.wait Cmd.waitDisarmed 600⟩ ∧
        t1 ≤ tb + 600) ∧
    envZ.dist 0 ≤ 50 :=
  example_scenario_success_bounds envZ
    (runSteps envZ st0 (basic_auto_mission 270 rally_loc false 0 50 0 0)).1 rfl

/-- C8: the heading sweep of `EngineOutScript` consists of one
`basic_auto_mission` invocation per heading, in order, for the fixed set
[0, 90, 180, 270] followed by the random sample; and every successful rally
invocation had its disarm wait (the vehicle disarmed) complete within the
600 bound and its measured landing distance within the configured [0, 50]
band. -/
theorem heading_sweep_coverage_and_landing (sample : List Nat) (sysid : Nat) :
    (∃ pre post, EngineOutScript sample sysid =
        pre ++ (((List.range 4).map (fun k => 90 * k) ++ sample).map
          (fun heading => basic_auto_mission heading rally_loc false 0 50 0 0)).flatten
        ++ post) ∧
    ∀ (heading : Nat) (env : Env) (s' : St),
      runSteps env st0 (basic_auto_mission heading rally_loc false 0 50 0 0) = (s', none) →
      env.waitTime 4 ≤ 600 ∧ 0 ≤ env.dist 0 ∧ env.dist 0 ≤ 50 ∧
        ∃ ev ∈ s'.trace, Ev.step ev = Step.wait Cmd.waitDisarmed 600 := by
  constructor
  · refine ⟨engineout_setup sysid ++ basic_auto_mission 270 guided_loc true 0 50 0 0,
      basic_auto_mission 270 rally_loc false 0 300 1 0
        ++ (basic_auto_mission 270 rally_loc false 50 300 0 5
          ++ (params_subtest ++ (prearm_subtest ++ engineout_teardown))), ?_⟩
    simp [EngineOutScript, heading_sweep, List.append_assoc]
  · intro heading env s' hrun
    obtain ⟨h4, hmin, hmax, tb, h15, h16⟩ := bam_rally_inv heading rally_loc 0 50 env s' hrun
    exact ⟨h4, hmin, hmax,
      ⟨tb, tb + env.waitTime 4, Step.wait Cmd.waitDisarmed 600⟩,
      List.getElem?_mem h16, rfl⟩

/-- Witness for C8: a concrete successful sweep invocation at heading 0. -/
theorem heading_sweep_coverage_and_landing_witness :
    envZ.waitTime 4 ≤ 600 ∧ 0 ≤ envZ.dist 0 ∧ envZ.dist 0 ≤ 50 ∧
      ∃ ev ∈ (runSteps envZ st0 (basic_auto_mission 0 rally_loc false 0 50 0 0)).1.trace,
        Ev.step ev = Step.wait Cmd.waitDisarmed 600 :=
  (heading_sweep_coverage_and_landing [] 0).2 0 envZ
    (runSteps envZ st0 (basic_auto_mission 0 rally_loc false 0 50 0 0)).1 rfl

/-- Counterexample to C5 as stated: `EngineOutScript` takes no
abort-vs-continue configuration, and when the first (guided) sub-scenario
fails - here its reset's RPM wait times out - the whole run ends with that
error having started only 1 of the 13 sub-scenarios the script contains:
the remaining sub-scenarios never execute, under any circumstances. -/
theorem runner_config_continue_cex :
    (runSteps envTO st0 (EngineOutScript [45, 135, 225, 315] 17)).2 = some TErr.timeout ∧
    (((runSteps envTO st0 (EngineOutScript [45, 135, 225, 315] 17)).1.trace.map Ev.step).filter
        isSubtestStart).length = 1 ∧
    ((EngineOutScript [45, 135, 225, 315] 17).filter isSubtestStart).length = 13 := by decide

/-- C5 (amended): `EngineOutScript` catches no errors: an error raised in
any of its sub-scenarios propagates unchanged as the result of the whole
script run, so the remaining sub-scenarios never execute - for every prefix
of the ordered sub-scenario segments, an error in that prefix is the final
result; abort-on-first-failure is hardwired, with no configuration. -/
theorem suberror_aborts_remaining (sample : List Nat) (sysid : Nat) (env : Env)
    (k : Nat) (s1 : St) (e : TErr)
    (h : runSteps env st0 (((engineout_segments sample sysid).take k).flatten)
      = (s1, some e)) :
    runSteps env st0 (EngineOutScript sample sysid) = (s1, some e) := by
  have hflat : EngineOutScript sample sysid = (engineout_segments sample sysid).flatten := by
    simp [EngineOutScript, engineout_segments, List.append_assoc]
  have hsplit : EngineOutScript sample sysid =
      ((engineout_segments sample sysid).take k).flatten
        ++ ((engineout_segments sample sysid).drop k).flatten := by
    rw [← List.flatten_append, List.take_append_drop, ← hflat]
  rw [hsplit]
  exact runSteps_append_err env _ _ st0 s1 e h

set_option maxRecDepth 8000 in
/-- Witness for the amended C5: under `envP` the first five sub-scenarios
succeed and the sixth (parameter-integrity) raises its value error at the
restore check, which becomes the result of the whole script run - the
prearm sweep and the teardown never execute. -/
theorem suberror_aborts_remaining_witness :
    runSteps envP st0 (EngineOutScript [45, 135, 225, 315] 17) =
      ((runSteps envP st0
          (((engineout_segments [45, 135, 225, 315] 17).take 6).flatten)).1,
        some (TErr.valueError "FOO" 1 2)) :=
  suberror_aborts_remaining [45, 135, 225, 315] 17 envP 6
    (runSteps envP st0
      (((engineout_segments [45, 135, 225, 315] 17).take 6).flatten)).1
    (TErr.valueError "FOO" 1 2) (by decide)

/-- C2: the parameter-integrity sub-scenario restores the engine, waits for
the recovery text, downloads a third time (index 2) and only then hard-checks
it against the pre-failure download (index 0); and that check succeeds
exactly when every entry of the pre-failure download whose name starts with
no ignore-list prefix has the identical value in the post-restore download -
any difference (or absence) is a raised error, not a logged message. -/
theorem param_restore_exact_equality :
    (params_subtest =
      [Step.act (.startSubtest "Testing detections and parameters backup/restore"),
       Step.act (.disarmVehicle true),
       Step.act .rebootSitl,
       Step.act (.applyParameterFile "default_params/fireeye-engout.parm"),
       Step.act (.setRC 3 1000),
       Step.act (.changeMode "QHOVER"),
       Step.act (.engineControl 1),
       Step.wait (.waitRpm 2 1000 3000) DEFAULT_TIMEOUT,
       Step.wait .waitReadyToArm DEFAULT_TIMEOUT,
       Step.download 0,
       Step.act (.changeMode "AUTO"),
       Step.act .armVehicle,
       Step.act (.setRC 3 1500),
       Step.wait (.waitCurrentWaypoint 4) 600,
       Step.act (.engineControl 0),
       Step.wait (.waitText "Engine out") DEFAULT_TIMEOUT,
       Step.delay 1,
       Step.download 1,
       Step.logDiffs 0 1,
       Step.act (.engineControl 1),
       Step.wait (.waitText "Engine running") DEFAULT_TIMEOUT,
       Step.delay 1,
       Step.download 2,
       Step.checkRestored 0 2,
       Step.act (.disarmVehicle true),
       Step.wait .waitDisarmed DEFAULT_TIMEOUT,
       Step.act (.endSubtest "Testing detections and parameters backup/restore")]) ∧
    ∀ (params_before params_after : Params),
      (check_params_restored params_before params_after = .ok () ↔
        ∀ pv ∈ params_before, ignoredParam pv.1 = false →
          List.lookup pv.1 params_after = some pv.2) := by
  refine ⟨rfl, fun params_before params_after => ?_⟩
  induction params_before with
  | nil => simp [check_params_restored]
  | cons pv rest ih =>
    obtain ⟨p, v⟩ := pv
    by_cases hig : ignoredParam p
    · simp [check_params_restored, hig, ih]
    · simp only [Bool.not_eq_true] at hig
      cases hl : List.lookup p params_after with
      | none => simp [check_params_restored, hig, hl]
      | some v2 =>
        by_cases hv : v = v2
        · subst hv
          simp [check_params_restored, hig, hl, ih]
        · simp [check_params_restored, hig, hl, hv]
          intro h
          exact absurd h.symm hv

/-- C10: the restore check quantifies only over names of the pre-failure
download (an entry present only in the post-restore download never changes
the verdict); for a non-ignored pre-failure name the post-restore lookup is
unguarded, so an absent name yields the lookup error (`keyError`), not the
diagnostic value-mismatch error; and the ignore test matches by name prefix
against exactly ["STAT", "BARO", "SERVO", "Q_P_ACCZ_IMAX"]. -/
theorem param_check_domain_and_keyerror :
    (∀ (params_before params_after : Params) (p : String) (v : Int),
        (∀ qw ∈ params_before, qw.1 ≠ p) →
        check_params_restored params_before ((p, v) :: params_after)
          = check_params_restored params_before params_after) ∧
    (∀ (p : String) (v : Int) (params_after : Params),
        ignoredParam p = false → List.lookup p params_after = none →
        check_params_restored [(p, v)] params_after = .error (.keyError p)) ∧
    (∀ p : String, ignoredParam p = true ↔
      ∃ s ∈ param_ignore_filter, s.toList <+: p.toList) := by
  refine ⟨?_, ?_, ?_⟩
  · intro params_before
    induction params_before with
    | nil => intro after p v _; rfl
    | cons qw rest ih =>
      intro after p v hall
      obtain ⟨q, w⟩ := qw
      have hq : (q == p) = false :=
        beq_false_of_ne (hall (q, w) (List.mem_cons_self _ _))
      have hlk : List.lookup q ((p, v) :: after) = List.lookup q after := by
        simp [List.lookup, hq]
      have ihr := ih after p v (fun x hx => hall x (List.mem_cons_of_mem _ hx))
      simp only [check_params_restored, hlk, ihr]
  · intro p v after hig hl
    simp [check_params_restored, hig, hl]
  · intro p
    simp [ignoredParam, List.any_eq_true, List.isPrefixOf_iff_prefix]

/-- Witness for C10: an entry present only post-restore does not change the
verdict, and a missing non-ignored name yields the lookup error. -/
theorem param_check_domain_and_keyerror_witness :
    check_params_restored [("ARSPD_FBWA", 3)] [("GLIDE_SPD", 9)]
      = check_params_restored [("ARSPD_FBWA", 3)] [] ∧
    check_params_restored [("ARSPD_FBWA", 3)] [] = .error (.keyError "ARSPD_FBWA") :=
  ⟨param_check_domain_and_keyerror.1 [("ARSPD_FBWA", 3)] [] "GLIDE_SPD" 9 (by decide),
   param_check_domain_and_keyerror.2.1 "ARSPD_FBWA" 3 [] (by decide) rfl⟩
